import Mathlib

/-!
Invoice service: repository layer and request handlers

A shallow embedding of `invoice/repository/invoice_repository.go` (the persistence
layer: `Create`, `List`, `toModelsStatus`) together with a model of the request
handlers exercised by `server/invoice_test.go`.

Conventions of the embedding

* The relational store is an explicit value `DB` holding the three tables as lists of
  rows in storage order. A statement run through `database/sql` is a function of that
  value; a statement that changes the store returns the new value.
* `time.Time` is an instant on a linear time line, carried as an `Int`.
* `uint32` / `uint64` columns are `Nat`; the repository performs no arithmetic on them.
* `float64` values are carried as their IEEE-754 bit pattern (a `Nat`); the repository
  only copies them.
* A Go result `(v, err)` is a pair of options: `none` in the first component is a nil
  value, `none` in the second is a nil error.
* SQL `=` on a `guid` column is exact string equality, and `BETWEEN` is inclusive at
  both ends.
* `SELECT invoice.*` yields the columns in the order `id, guid, company_id,
  customer_id, publish_date, payment, commission_tax, commission_tax_rate,
  consumption_tax, tax_rate, billing_amount, payment_date, status`, the order in which
  `List` scans them; `id` is assigned by the store on insert.
* Failures of the driver that do not depend on the stored data (lost connection,
  constraint violation, conversion failure in `Scan`) are supplied by a `Driver` value,
  one optional error text per point at which the source checks `err`.
-/

set_option autoImplicit false

/-! ## External types -/

/-- An instant of `time.Time`. -/
abbrev Time := Int

/-- A `float64`, carried as its bit pattern. -/
abbrev Float64 := Nat

namespace errpkg

/-- Error codes of the `invoice/errors` package, by the names the sources use. -/
inductive ErrCode where
  | ErrNotFound
  | ErrInvalidArgument
  | ErrInternal
  deriving DecidableEq, Repr

/-- The `ServerError` value: an error code wrapping the text of the underlying error. -/
structure ServerError where
  ErrCode : ErrCode
  Err : String
  deriving DecidableEq, Repr

/-- Constructor `NewNotFoundError`. -/
def NewNotFoundError (err : String) : ServerError := ⟨ErrCode.ErrNotFound, err⟩

/-- Constructor `NewInvalidArgumentError`. -/
def NewInvalidArgumentError (err : String) : ServerError := ⟨ErrCode.ErrInvalidArgument, err⟩

/-- Constructor `NewInternalError`. -/
def NewInternalError (err : String) : ServerError := ⟨ErrCode.ErrInternal, err⟩

end errpkg

namespace models

/-- The domain status, a string type. -/
abbrev InvoiceStatus := String

/-- Modelled from the spec: the `models` package is not among the sources. The four
domain statuses are given the spelling of the storage representation, which is what
`Create` relies on when it stores `invoice.Status` as it is and `List` reads it back
through `toModelsStatus`. -/
def InvoiceStatusUnprocessed : InvoiceStatus := "unprocessed"

/-- Modelled from the spec: see `InvoiceStatusUnprocessed`. -/
def InvoiceStatusProcessing : InvoiceStatus := "processing"

/-- Modelled from the spec: see `InvoiceStatusUnprocessed`. -/
def InvoiceStatusPaied : InvoiceStatus := "paied"

/-- Modelled from the spec: see `InvoiceStatusUnprocessed`. -/
def InvoiceStatusError : InvoiceStatus := "error"

/-- The domain invoice `models.Invoice`, with the fields the repository and the
handlers read and write. -/
structure Invoice where
  GUID : String
  CompanyGUID : String
  CustomerGUID : String
  PublishDate : Time
  Payment : Nat
  CommissionTax : Nat
  CommissionTaxRate : Float64
  ConsumptionTax : Nat
  TaxRate : Float64
  BillingAmount : Nat
  PaymentDate : Time
  Status : InvoiceStatus
  deriving DecidableEq, Repr

/-- The session data `models.LoginInfo`. -/
structure LoginInfo where
  GUID : String
  CompanyGUID : String
  deriving DecidableEq, Repr

end models

namespace sql

/-- Errors of `QueryRow(...).Scan`: the sentinel `sql.ErrNoRows` or any other error. -/
inductive Err where
  | ErrNoRows
  | other (msg : String)
  deriving DecidableEq, Repr

/-- The text of `err.Error()`. -/
def Err.Error : Err → String
  | Err.ErrNoRows => "sql: no rows in result set"
  | Err.other msg => msg

end sql

namespace repository

/-- The storage status, a string type. -/
abbrev InvoiceStatus := String

def InvoiceStatusUnprocessed : InvoiceStatus := "unprocessed"
def InvoiceStatusProcessing : InvoiceStatus := "processing"
def InvoiceStatusPaied : InvoiceStatus := "paied"
def InvoiceStatusError : InvoiceStatus := "error"

/-- A row of table `invoice`, in the column order `List` scans. -/
structure Invoice where
  ID : Nat
  GUID : String
  CompanyID : Nat
  CustomerID : Nat
  PublishDate : Time
  Payment : Nat
  CommissionTax : Nat
  CommissionTaxRate : Float64
  ConsumptionTax : Nat
  TaxRate : Float64
  BillingAmount : Nat
  PaymentDate : Time
  Status : String
  deriving DecidableEq, Repr

/-- A row of the join: the invoice columns followed by `customer.guid`. -/
structure InvoiceWithCustomerGUID where
  Invoice : Invoice
  CustomerGUID : String
  deriving DecidableEq, Repr

/-- A row of table `company`. -/
structure CompanyRow where
  id : Nat
  guid : String
  deriving DecidableEq, Repr

/-- A row of table `customer`. -/
structure CustomerRow where
  id : Nat
  guid : String
  company_id : Nat
  deriving DecidableEq, Repr

/-- The state of the store. -/
structure DB where
  company : List CompanyRow
  customer : List CustomerRow
  invoice : List Invoice
  deriving DecidableEq, Repr

/-- Data-independent failures of the driver, one per `err` check of the repository. -/
structure Driver where
  createCustomerQuery : Option String
  createCompanyQuery : Option String
  createExec : Option String
  listCompanyQuery : Option String
  listQuery : Option String
  listScan : Nat → Option String
  listClose : Option String
  listRowsErr : Option String

/-- The driver that never fails on its own. -/
def Driver.healthy : Driver :=
  ⟨none, none, none, none, none, fun _ => none, none, none⟩

/-- Status mapping `toModelsStatus`: storage representation to domain representation. -/
def toModelsStatus (status : String) : models.InvoiceStatus × Option String :=
  if status = InvoiceStatusUnprocessed then (models.InvoiceStatusUnprocessed, none)
  else if status = InvoiceStatusProcessing then (models.InvoiceStatusProcessing, none)
  else if status = InvoiceStatusPaied then (models.InvoiceStatusPaied, none)
  else if status = InvoiceStatusError then (models.InvoiceStatusError, none)
  else ("", some ("unknown status: " ++ status))

/-- The four storage spellings `toModelsStatus` knows. -/
def knownStatuses : List String :=
  [InvoiceStatusUnprocessed, InvoiceStatusProcessing, InvoiceStatusPaied, InvoiceStatusError]

/-- The lists `List` works with. -/
abbrev JoinRows := List InvoiceWithCustomerGUID

/-- A slice of domain invoices. -/
abbrev Invoices := List models.Invoice

/-- Statement `SELECT id, company_id FROM customer WHERE guid=?` run by
`QueryRowContext`: the two columns, in that order, of the first matching row. -/
def queryCustomer (db : DB) (guid : String) : Except sql.Err (Nat × Nat) :=
  match db.customer.find? (fun c => c.guid == guid) with
  | none => Except.error sql.Err.ErrNoRows
  | some c => Except.ok (c.id, c.company_id)

/-- Statement `SELECT guid FROM company WHERE id=?` run by `QueryRowContext`. -/
def queryCompanyGUID (db : DB) (id : Nat) : Except sql.Err String :=
  match db.company.find? (fun c => c.id == id) with
  | none => Except.error sql.Err.ErrNoRows
  | some c => Except.ok c.guid

/-- Statement `SELECT id FROM company WHERE guid=?` run by `QueryRowContext`. -/
def queryCompanyID (db : DB) (guid : String) : Except sql.Err Nat :=
  match db.company.find? (fun c => c.guid == guid) with
  | none => Except.error sql.Err.ErrNoRows
  | some c => Except.ok c.id

/-- A driver failure, when there is one, replaces the outcome of a single-row query. -/
def withDriver {α : Type} (fault : Option String) (r : Except sql.Err α) : Except sql.Err α :=
  match fault with
  | some e => Except.error (sql.Err.other e)
  | none => r

/-- The id the store gives to a new invoice row: one past the largest id in use. -/
def nextInvoiceID (rows : List Invoice) : Nat :=
  (rows.map (fun r => r.ID)).foldr max 0 + 1

/-- Statement `INSERT INTO invoice (guid, company_id, customer_id, publish_date, payment,
commission_tax, commission_tax_rate, consumption_tax, tax_rate, billing_amount,
payment_date, status) VALUES (...)`, with the twelve arguments in the order given. -/
def execInsert (db : DB) (guid : String) (company_id customer_id : Nat) (publish_date : Time)
    (payment commission_tax : Nat) (commission_tax_rate : Float64) (consumption_tax : Nat)
    (tax_rate : Float64) (billing_amount : Nat) (payment_date : Time) (status : String) : DB :=
  { db with invoice := db.invoice ++
      [{ ID := nextInvoiceID db.invoice, GUID := guid, CompanyID := company_id,
         CustomerID := customer_id, PublishDate := publish_date, Payment := payment,
         CommissionTax := commission_tax, CommissionTaxRate := commission_tax_rate,
         ConsumptionTax := consumption_tax, TaxRate := tax_rate,
         BillingAmount := billing_amount, PaymentDate := payment_date, Status := status }] }

/-- Method `InvoiceRepository.Create`: the store after the call and the error returned.
The row of the first query is scanned as `Scan(&companyID, &customerID)`: the first
column, `id`, goes to `companyID` and the second, `company_id`, to `customerID`. -/
def InvoiceRepository.Create (drv : Driver) (db : DB) (invoice : models.Invoice) :
    DB × Option errpkg.ServerError :=
  match withDriver drv.createCustomerQuery (queryCustomer db invoice.CustomerGUID) with
  | Except.error err =>
    match err with
    | sql.Err.ErrNoRows =>
      (db, some (errpkg.NewNotFoundError
        ("customer not found: " ++ invoice.CustomerGUID ++ " err: " ++ err.Error)))
    | sql.Err.other _ => (db, some (errpkg.NewInternalError err.Error))
  | Except.ok (col1, col2) =>
    let companyID := col1
    let customerID := col2
    match withDriver drv.createCompanyQuery (queryCompanyGUID db companyID) with
    | Except.error err =>
      match err with
      | sql.Err.ErrNoRows =>
        (db, some (errpkg.NewNotFoundError
          ("customer not found: " ++ invoice.CustomerGUID ++ " err: " ++ err.Error)))
      | sql.Err.other _ => (db, some (errpkg.NewInternalError err.Error))
    | Except.ok companyGUID =>
      if companyGUID ≠ invoice.CompanyGUID then
        (db, some (errpkg.NewInvalidArgumentError
          ("company guid is not match: " ++ invoice.CompanyGUID)))
      else
        match drv.createExec with
        | some e => (db, some (errpkg.NewInternalError e))
        | none =>
          (execInsert db invoice.GUID companyID customerID invoice.PublishDate
            invoice.Payment invoice.CommissionTax invoice.CommissionTaxRate
            invoice.ConsumptionTax invoice.TaxRate invoice.BillingAmount
            invoice.PaymentDate invoice.Status, none)

/-- The join statement of `List`: `SELECT invoice.*, customer.guid FROM invoice JOIN
customer ON invoice.customer_id = customer.id WHERE invoice.company_id = ? AND
invoice.payment_date BETWEEN ? AND ?`, evaluated as a nested loop over the invoice
rows and, for each, the customer rows. -/
def queryInvoices (db : DB) (companyID : Nat) (firstPaymentDate lastPaymentDate : Time) :
    List (Invoice × String) :=
  (db.invoice.flatMap fun inv =>
    db.customer.filterMap fun c =>
      if inv.CustomerID = c.id then some (inv, c.guid) else none).filter
    fun r => decide (r.1.CompanyID = companyID ∧
      firstPaymentDate ≤ r.1.PaymentDate ∧ r.1.PaymentDate ≤ lastPaymentDate)

/-- The loop `for rows.Next() { rows.Scan(...); invoices = append(invoices, invoice) }`,
at row number `i` with `invoices` collected so far. -/
def scanRows (drv : Driver) : Nat → List (Invoice × String) → JoinRows → Except String JoinRows
  | _, [], invoices => Except.ok invoices
  | i, r :: rest, invoices =>
    match drv.listScan i with
    | some e => Except.error e
    | none => scanRows drv (i + 1) rest (invoices ++ [⟨r.1, r.2⟩])

/-- The loop `for _, invoice := range invoices { ... }` of `List`, with `invoiceModels`
built so far: the first unknown status ends the call with an internal error. -/
def toInvoiceModels (companyGUID : String) :
    JoinRows → Invoices → Option Invoices × Option errpkg.ServerError
  | [], invoiceModels => (some invoiceModels, none)
  | invoice :: rest, invoiceModels =>
    match toModelsStatus invoice.Invoice.Status with
    | (_, some err) => (none, some (errpkg.NewInternalError err))
    | (status, none) =>
      toInvoiceModels companyGUID rest (invoiceModels ++
        [{ GUID := invoice.Invoice.GUID, CompanyGUID := companyGUID,
           CustomerGUID := invoice.CustomerGUID, PublishDate := invoice.Invoice.PublishDate,
           Payment := invoice.Invoice.Payment, CommissionTax := invoice.Invoice.CommissionTax,
           CommissionTaxRate := invoice.Invoice.CommissionTaxRate,
           ConsumptionTax := invoice.Invoice.ConsumptionTax, TaxRate := invoice.Invoice.TaxRate,
           BillingAmount := invoice.Invoice.BillingAmount,
           PaymentDate := invoice.Invoice.PaymentDate, Status := status }])

/-- Method `InvoiceRepository.List`: the slice and the error returned. -/
def InvoiceRepository.List (drv : Driver) (db : DB) (companyGUID : String)
    (firstPaymentDate lastPaymentDate : Time) : Option Invoices × Option errpkg.ServerError :=
  match withDriver drv.listCompanyQuery (queryCompanyID db companyGUID) with
  | Except.error err =>
    match err with
    | sql.Err.ErrNoRows =>
      (none, some (errpkg.NewNotFoundError
        ("company not found: " ++ companyGUID ++ " err: " ++ err.Error)))
    | sql.Err.other _ => (none, some (errpkg.NewInternalError err.Error))
  | Except.ok companyID =>
    match drv.listQuery with
    | some e => (none, some (errpkg.NewInternalError e))
    | none =>
      match scanRows drv 0 (queryInvoices db companyID firstPaymentDate lastPaymentDate) [] with
      | Except.error e => (none, some (errpkg.NewInternalError e))
      | Except.ok invoices =>
        match drv.listClose with
        | some rerr => (none, some (errpkg.NewInternalError rerr))
        | none =>
          match drv.listRowsErr with
          | some e => (none, some (errpkg.NewInternalError e))
          | none => toInvoiceModels companyGUID invoices []

/-- Every table has pairwise distinct ids. -/
def DB.uniqueIds (db : DB) : Prop :=
  (db.company.map fun c => c.id).Nodup ∧ (db.customer.map fun c => c.id).Nodup ∧
    (db.invoice.map fun i => i.ID).Nodup

instance (db : DB) : Decidable db.uniqueIds := by
  unfold DB.uniqueIds; infer_instance

/-- Company rows have pairwise distinct guids, and so have customer rows. -/
def DB.uniqueGuids (db : DB) : Prop :=
  (db.company.map fun c => c.guid).Nodup ∧ (db.customer.map fun c => c.guid).Nodup

instance (db : DB) : Decidable db.uniqueGuids := by
  unfold DB.uniqueGuids; infer_instance

/-- The pairs (invoice row, customer row) that `List` is to report for the company with
id `companyID`: the invoice belongs to that company, the customer is the invoice's
customer, and the payment date lies between the two bounds, both included. The pairs are
in the order of the invoice table and, for one invoice, of the customer table. -/
def selectedPairs (db : DB) (companyID : Nat) (first last : Time) :
    List (Invoice × CustomerRow) :=
  (List.product db.invoice db.customer).filter fun p =>
    decide (p.1.CompanyID = companyID ∧ p.1.CustomerID = p.2.id ∧
      first ≤ p.1.PaymentDate ∧ p.1.PaymentDate ≤ last)

/-- The domain invoice `List` is to report for a selected pair: the company guid asked
for, the guid of the joined customer, the status in its domain representation, and
every other field copied from the invoice row. -/
def listedInvoice (companyGUID : String) (p : Invoice × CustomerRow) : models.Invoice :=
  { GUID := p.1.GUID, CompanyGUID := companyGUID, CustomerGUID := p.2.guid,
    PublishDate := p.1.PublishDate, Payment := p.1.Payment,
    CommissionTax := p.1.CommissionTax, CommissionTaxRate := p.1.CommissionTaxRate,
    ConsumptionTax := p.1.ConsumptionTax, TaxRate := p.1.TaxRate,
    BillingAmount := p.1.BillingAmount, PaymentDate := p.1.PaymentDate,
    Status := (toModelsStatus p.1.Status).1 }

end repository

namespace server

/-- The response object `server.InvoiceResponse`, with the fields the test compares. -/
structure InvoiceResponse where
  GUID : String
  CompanyGUID : String
  CustomerGUID : String
  PublishDate : Time
  Payment : Nat
  CommissionTax : Nat
  CommissionTaxRate : Float64
  ConsumptionTax : Nat
  TaxRate : Float64
  BillingAmount : Nat
  PaymentDate : Time
  Status : String
  deriving DecidableEq, Repr

/-- The decoded body of `POST /api/invoices`: a field is `none` when the body lacks it. -/
structure CreateInvoiceRequest where
  company_guid : Option String
  customer_guid : Option String
  publish_date : Option Time
  payment : Option Nat
  commission_tax_rate : Option Float64
  tax_rate : Option Float64
  payment_date : Option Time
  deriving DecidableEq, Repr

/-- The decoded query of `GET /api/invoices`: a field is `none` when the query lacks it. -/
structure ListInvoiceRequest where
  first_payment_date : Option Time
  last_payment_date : Option Time
  deriving DecidableEq, Repr

/-- The use case behind the handlers, with the signatures the test's mock expects. -/
structure InvoiceUsecase where
  Create : String → String → Time → Nat → Float64 → Float64 → Time →
    Except errpkg.ServerError models.Invoice
  List : String → Time → Time → Except errpkg.ServerError (List models.Invoice)

/-- A call the handler made on the use case. -/
inductive UsecaseCall where
  | Create (companyGUID customerGUID : String) (publishDate : Time) (payment : Nat)
      (commissionTaxRate taxRate : Float64) (paymentDate : Time)
  | List (companyGUID : String) (firstPaymentDate lastPaymentDate : Time)
  deriving DecidableEq, Repr

/-- What a handler returns, `(res, err)`, and the use-case calls it made on the way. -/
structure Outcome (α : Type) where
  res : Option α
  err : Option errpkg.ServerError
  calls : List UsecaseCall

/-- Modelled from the spec: the handlers of package `server` are not among the sources,
only their test is. "Mapping of stored rows back to response objects": every field is
copied and the status becomes its string value. -/
def toInvoiceResponse (invoice : models.Invoice) : InvoiceResponse :=
  { GUID := invoice.GUID, CompanyGUID := invoice.CompanyGUID,
    CustomerGUID := invoice.CustomerGUID, PublishDate := invoice.PublishDate,
    Payment := invoice.Payment, CommissionTax := invoice.CommissionTax,
    CommissionTaxRate := invoice.CommissionTaxRate, ConsumptionTax := invoice.ConsumptionTax,
    TaxRate := invoice.TaxRate, BillingAmount := invoice.BillingAmount,
    PaymentDate := invoice.PaymentDate, Status := invoice.Status }

/-- Modelled from the spec: handler `Server.CreateInvoice` is not among the sources.
"An inbound request, field validation, a use-case function, mapping back to response
objects": a body lacking a required field is refused with an invalid-argument error
before the use case is reached; otherwise the use case is called once with the fields of
the body, its error is passed on and its invoice is mapped to a response. -/
def Server.CreateInvoice (uc : InvoiceUsecase) (req : CreateInvoiceRequest)
    (_loginInfo : models.LoginInfo) : Outcome InvoiceResponse :=
  match req.company_guid, req.customer_guid, req.publish_date, req.payment,
    req.commission_tax_rate, req.tax_rate, req.payment_date with
  | some companyGUID, some customerGUID, some publishDate, some payment,
    some commissionTaxRate, some taxRate, some paymentDate =>
    let call := UsecaseCall.Create companyGUID customerGUID publishDate payment
      commissionTaxRate taxRate paymentDate
    match uc.Create companyGUID customerGUID publishDate payment commissionTaxRate taxRate
      paymentDate with
    | Except.error err => ⟨none, some err, [call]⟩
    | Except.ok invoice => ⟨some (toInvoiceResponse invoice), none, [call]⟩
  | _, _, _, _, _, _, _ =>
    ⟨none, some (errpkg.NewInvalidArgumentError "invalid request"), []⟩

/-- Modelled from the spec: handler `Server.ListInvoice` is not among the sources.
A query lacking one of the two dates is refused with an invalid-argument error before
the use case is reached; otherwise the use case is called once for the company of the
session, its error is passed on and its invoices are mapped, in order, to responses. -/
def Server.ListInvoice (uc : InvoiceUsecase) (req : ListInvoiceRequest)
    (loginInfo : models.LoginInfo) : Outcome (List InvoiceResponse) :=
  match req.first_payment_date, req.last_payment_date with
  | some firstPaymentDate, some lastPaymentDate =>
    let call := UsecaseCall.List loginInfo.CompanyGUID firstPaymentDate lastPaymentDate
    match uc.List loginInfo.CompanyGUID firstPaymentDate lastPaymentDate with
    | Except.error err => ⟨none, some err, [call]⟩
    | Except.ok invoices => ⟨some (invoices.map toInvoiceResponse), none, [call]⟩
  | _, _ => ⟨none, some (errpkg.NewInvalidArgumentError "invalid request"), []⟩

/-- The response `r` repeats every field of `invoice`, the status as its string value. -/
def copies (r : InvoiceResponse) (invoice : models.Invoice) : Prop :=
  r.GUID = invoice.GUID ∧ r.CompanyGUID = invoice.CompanyGUID ∧
  r.CustomerGUID = invoice.CustomerGUID ∧ r.PublishDate = invoice.PublishDate ∧
  r.Payment = invoice.Payment ∧ r.CommissionTax = invoice.CommissionTax ∧
  r.CommissionTaxRate = invoice.CommissionTaxRate ∧
  r.ConsumptionTax = invoice.ConsumptionTax ∧ r.TaxRate = invoice.TaxRate ∧
  r.BillingAmount = invoice.BillingAmount ∧ r.PaymentDate = invoice.PaymentDate ∧
  r.Status = invoice.Status

instance (r : InvoiceResponse) (invoice : models.Invoice) : Decidable (copies r invoice) := by
  unfold copies; infer_instance

end server


/-! ## Stores and invoices used as concrete inputs -/

namespace fixtures

open repository

/-- An invoice for customer `customerGUID`, claimed for company `companyGUID`. -/
def invoiceFor (guid companyGUID customerGUID : String) : models.Invoice :=
  { GUID := guid, CompanyGUID := companyGUID, CustomerGUID := customerGUID,
    PublishDate := 1711929600, Payment := 10000, CommissionTax := 400,
    CommissionTaxRate := 0x3FA47AE147AE147B, ConsumptionTax := 40,
    TaxRate := 0x3FB999999999999A, BillingAmount := 10440, PaymentDate := 1712275200,
    Status := models.InvoiceStatusUnprocessed }

/-- Two companies and one customer, with id 1, that belongs to company 2. -/
def foreignDB : DB :=
  { company := [⟨1, "company-a"⟩, ⟨2, "company-b"⟩],
    customer := [⟨1, "customer-1", 2⟩],
    invoice := [] }

/-- Two companies and one customer, with id 2, that belongs to company 1. -/
def swappedDB : DB :=
  { company := [⟨1, "company-a"⟩, ⟨2, "company-b"⟩],
    customer := [⟨2, "customer-2", 1⟩],
    invoice := [] }

/-- Two companies, with ids 1 and 3, one customer, with id 3, that belongs to company 1,
and one invoice already stored. -/
def mismatchDB : DB :=
  { company := [⟨1, "company-a"⟩, ⟨3, "company-c"⟩],
    customer := [⟨3, "customer-3", 1⟩],
    invoice := [⟨7, "invoice-7", 1, 3, 1711929600, 500, 20, 0x3FA47AE147AE147B, 2,
      0x3FB999999999999A, 522, 1712016000, "paied"⟩] }

/-- A stored invoice of company `companyID` and customer `customerID`. -/
def storedInvoice (id : Nat) (guid : String) (companyID customerID : Nat) (paymentDate : Time)
    (status : String) : Invoice :=
  ⟨id, guid, companyID, customerID, 1711929600, 10000, 400, 0x3FA47AE147AE147B, 40,
    0x3FB999999999999A, 10440, paymentDate, status⟩

/-- Two companies, three customers and four invoices: two of company 1 paid on 1 and
5 April 2024, one of company 2 paid on 2 April, one of company 1 paid on 6 April. -/
def listDB : DB :=
  { company := [⟨1, "company-a"⟩, ⟨2, "company-b"⟩],
    customer := [⟨1, "customer-1", 1⟩, ⟨2, "customer-2", 1⟩, ⟨3, "customer-3", 2⟩],
    invoice := [storedInvoice 1 "invoice-1" 1 1 1711929600 "paied",
      storedInvoice 2 "invoice-2" 1 2 1712275200 "unprocessed",
      storedInvoice 3 "invoice-3" 2 3 1712016000 "error",
      storedInvoice 4 "invoice-4" 1 1 1712361600 "processing"] }

/-- The store `listDB` with the status of its second invoice misspelt. -/
def badStatusDB : DB :=
  { listDB with
    invoice := [storedInvoice 1 "invoice-1" 1 1 1711929600 "paied",
      storedInvoice 2 "invoice-2" 1 2 1712275200 "Paid",
      storedInvoice 3 "invoice-3" 2 3 1712016000 "error",
      storedInvoice 4 "invoice-4" 1 1 1712361600 "processing"] }

/-- One company, one customer of it with the same id, and one stored invoice of that
customer whose status is none of the four known spellings. -/
def unknownStoredDB : DB :=
  { company := [⟨1, "company-a"⟩],
    customer := [⟨1, "customer-1", 1⟩],
    invoice := [storedInvoice 5 "invoice-5" 1 1 1712275200 "Paid"] }

/-- The session of the handler test, `testLoginInfo`. -/
def testLoginInfo : models.LoginInfo := ⟨"guid", "company_guid"⟩

/-- One of the invoices the mocked use case returns in the handler test. -/
def testInvoice (guid companyGUID customerGUID : String) (publishDate paymentDate : Time)
    (status : models.InvoiceStatus) : models.Invoice :=
  { GUID := guid, CompanyGUID := companyGUID, CustomerGUID := customerGUID,
    PublishDate := publishDate, Payment := 10000, CommissionTax := 400,
    CommissionTaxRate := 0x3FA47AE147AE147B, ConsumptionTax := 40,
    TaxRate := 0x3FB999999999999A, BillingAmount := 10440, PaymentDate := paymentDate,
    Status := status }

/-- The response the handler test expects for `testInvoice` with the same arguments. -/
def testResponse (guid companyGUID customerGUID : String) (publishDate paymentDate : Time)
    (status : String) : server.InvoiceResponse :=
  { GUID := guid, CompanyGUID := companyGUID, CustomerGUID := customerGUID,
    PublishDate := publishDate, Payment := 10000, CommissionTax := 400,
    CommissionTaxRate := 0x3FA47AE147AE147B, ConsumptionTax := 40,
    TaxRate := 0x3FB999999999999A, BillingAmount := 10440, PaymentDate := paymentDate,
    Status := status }

/-- The three invoices returned by the mocked `List` of `TestListInvoice`. -/
def testInvoices : List models.Invoice :=
  [testInvoice "guid1" "company_guid1" "customer_guid1" 1711929600 1711929600
      models.InvoiceStatusPaied,
   testInvoice "guid2" "company_guid2" "customer_guid2" 1712016000 1711929600
      models.InvoiceStatusUnprocessed,
   testInvoice "guid3" "company_guid3" "customer_guid3" 1711929600 1712275200
      models.InvoiceStatusError]

/-- The mocked use case of the two passing test cases: it answers the one call the test
expects and fails on any other. -/
def mockUsecase : server.InvoiceUsecase :=
  { Create := fun companyGUID customerGUID publishDate payment commissionTaxRate taxRate
        paymentDate =>
      if companyGUID = "company_guid" ∧ customerGUID = "customer_guid" ∧
          publishDate = 1711929600 ∧ payment = 10000 ∧
          commissionTaxRate = 0x3FA47AE147AE147B ∧ taxRate = 0x3FB999999999999A ∧
          paymentDate = 1712275200 then
        Except.ok (testInvoice "guid" "company_guid" "customer_guid" 1711929600 1712275200
          models.InvoiceStatusUnprocessed)
      else Except.error (errpkg.NewInternalError "unexpected call"),
    List := fun companyGUID firstPaymentDate lastPaymentDate =>
      if companyGUID = "company_guid" ∧ firstPaymentDate = 1711929600 ∧
          lastPaymentDate = 1712275200 then
        Except.ok testInvoices
      else Except.error (errpkg.NewInternalError "unexpected call") }

/-- The mocked use case of the failing test cases: every call returns an internal error. -/
def failingUsecase : server.InvoiceUsecase :=
  { Create := fun _ _ _ _ _ _ _ => Except.error (errpkg.NewInternalError "internal"),
    List := fun _ _ _ => Except.error (errpkg.NewInternalError "internal") }

/-- The body of the passing case of `TestCreateInvoice`. -/
def testCreateRequest : server.CreateInvoiceRequest :=
  ⟨some "company_guid", some "customer_guid", some 1711929600, some 10000,
    some 0x3FA47AE147AE147B, some 0x3FB999999999999A, some 1712275200⟩

/-- The query of the passing case of `TestListInvoice`. -/
def testListRequest : server.ListInvoiceRequest := ⟨some 1711929600, some 1712275200⟩

end fixtures

/-! ## Status mapping -/

/-- C4: `toModelsStatus s` returns no error exactly when `s` is one of "unprocessed",
"processing", "paied", "error", and then returns the matching domain status; on every
other string, the empty string and differently-cased spellings among them, it returns
the empty status and an error. -/
theorem toModelsStatus_spec (s : String) :
    ((repository.toModelsStatus s).2 = none ↔
      s = "unprocessed" ∨ s = "processing" ∨ s = "paied" ∨ s = "error") ∧
    repository.toModelsStatus "unprocessed" = (models.InvoiceStatusUnprocessed, none) ∧
    repository.toModelsStatus "processing" = (models.InvoiceStatusProcessing, none) ∧
    repository.toModelsStatus "paied" = (models.InvoiceStatusPaied, none) ∧
    repository.toModelsStatus "error" = (models.InvoiceStatusError, none) ∧
    (¬ (s = "unprocessed" ∨ s = "processing" ∨ s = "paied" ∨ s = "error") →
      repository.toModelsStatus s = ("", some ("unknown status: " ++ s))) ∧
    (repository.toModelsStatus "").2 ≠ none ∧
    (repository.toModelsStatus "Unprocessed").2 ≠ none ∧
    (repository.toModelsStatus "PAIED").2 ≠ none := by
  refine ⟨?_, by decide, by decide, by decide, by decide, ?_, by decide, by decide, by decide⟩
  · unfold repository.toModelsStatus repository.InvoiceStatusUnprocessed
      repository.InvoiceStatusProcessing repository.InvoiceStatusPaied
      repository.InvoiceStatusError
    constructor
    · intro h
      by_cases h1 : s = "unprocessed"
      · exact Or.inl h1
      by_cases h2 : s = "processing"
      · exact Or.inr (Or.inl h2)
      by_cases h3 : s = "paied"
      · exact Or.inr (Or.inr (Or.inl h3))
      by_cases h4 : s = "error"
      · exact Or.inr (Or.inr (Or.inr h4))
      simp [h1, h2, h3, h4] at h
    · rintro (h | h | h | h) <;> subst h <;> decide
  · intro h
    unfold repository.toModelsStatus repository.InvoiceStatusUnprocessed
      repository.InvoiceStatusProcessing repository.InvoiceStatusPaied
      repository.InvoiceStatusError
    simp only [not_or] at h
    simp [h.1, h.2.1, h.2.2.1, h.2.2.2]


/-! ## Create -/

open repository in
/-- C1: `Create` is meant to succeed only when the customer belongs to the claimed
company. On `foreignDB` the customer "customer-1" exists and its owning company, the one
with id 2, has guid "company-b"; an invoice claiming "company-a" is nevertheless
accepted, because the company looked up is the one whose id equals the customer's id. -/
theorem Create_accepts_foreign_company :
    fixtures.foreignDB.uniqueIds ∧
    (InvoiceRepository.Create Driver.healthy fixtures.foreignDB
      (fixtures.invoiceFor "invoice-1" "company-a" "customer-1")).2 = none ∧
    (∃ cu ∈ fixtures.foreignDB.customer, cu.guid = "customer-1") ∧
    (∀ cu ∈ fixtures.foreignDB.customer, cu.guid = "customer-1" →
      ∃ co ∈ fixtures.foreignDB.company, co.id = cu.company_id) ∧
    (∀ cu ∈ fixtures.foreignDB.customer, cu.guid = "customer-1" →
      ∀ co ∈ fixtures.foreignDB.company, co.id = cu.company_id → co.guid ≠ "company-a") := by
  decide

open repository in
/-- C2: on success `Create` is meant to add one row whose customer_id is the id of the
customer row and whose company_id is that row's company_id. On `swappedDB` the customer
"customer-2" has id 2 and company_id 1; the call succeeds and adds exactly one row, but
that row carries company_id 2 and customer_id 1: the two values are stored the other
way round. The customer and company tables are unchanged. -/
theorem Create_stores_ids_swapped :
    fixtures.swappedDB.uniqueIds ∧
    InvoiceRepository.Create Driver.healthy fixtures.swappedDB
        (fixtures.invoiceFor "invoice-2" "company-b" "customer-2") =
      ({ fixtures.swappedDB with
          invoice := fixtures.swappedDB.invoice ++
            [⟨1, "invoice-2", 2, 1, 1711929600, 10000, 400, 0x3FA47AE147AE147B, 40,
              0x3FB999999999999A, 10440, 1712275200, "unprocessed"⟩] }, none) ∧
    (∃ cu ∈ fixtures.swappedDB.customer, cu.guid = "customer-2") ∧
    (∀ cu ∈ fixtures.swappedDB.customer, cu.guid = "customer-2" →
      cu.id = 2 ∧ cu.company_id = 1) ∧
    (∀ r ∈ (InvoiceRepository.Create Driver.healthy fixtures.swappedDB
        (fixtures.invoiceFor "invoice-2" "company-b" "customer-2")).1.invoice,
      ∀ cu ∈ fixtures.swappedDB.customer, cu.guid = "customer-2" →
        r.CustomerID ≠ cu.id ∧ r.CompanyID ≠ cu.company_id ∧
        r.CustomerID = cu.company_id ∧ r.CompanyID = cu.id) := by
  decide

open repository in
/-- C8: when the customer exists and its owning company has a guid other than the one
claimed, `Create` is meant to return an invalid-argument error and insert nothing. On
`mismatchDB` the customer "customer-3" belongs to company 1, "company-a"; an invoice
claiming "company-c" is accepted without error and a row is added, because the guid
compared is that of the company whose id equals the customer's id, 3. -/
theorem Create_misses_company_mismatch :
    fixtures.mismatchDB.uniqueIds ∧
    (∃ cu ∈ fixtures.mismatchDB.customer, cu.guid = "customer-3" ∧
      ∃ co ∈ fixtures.mismatchDB.company, co.id = cu.company_id ∧ co.guid ≠ "company-c") ∧
    (InvoiceRepository.Create Driver.healthy fixtures.mismatchDB
      (fixtures.invoiceFor "invoice-8" "company-c" "customer-3")).2 = none ∧
    (InvoiceRepository.Create Driver.healthy fixtures.mismatchDB
      (fixtures.invoiceFor "invoice-8" "company-c" "customer-3")).1.invoice ≠
        fixtures.mismatchDB.invoice ∧
    (InvoiceRepository.Create Driver.healthy fixtures.mismatchDB
      (fixtures.invoiceFor "invoice-8" "company-c" "customer-3")).1.invoice.length =
        fixtures.mismatchDB.invoice.length + 1 := by
  decide

/-! ## Single-row lookups -/

namespace repository

theorem queryCustomer_eq_noRows_iff (db : DB) (guid : String) :
    queryCustomer db guid = Except.error sql.Err.ErrNoRows ↔
      ∀ cu ∈ db.customer, cu.guid ≠ guid := by
  unfold queryCustomer
  cases h : db.customer.find? (fun c => c.guid == guid) with
  | none =>
    simp only [true_iff]
    intro cu hcu
    have := List.find?_eq_none.mp h cu hcu
    simpa using this
  | some c =>
    simp only [reduceCtorEq, false_iff]
    intro hall
    have h1 := List.find?_some h
    have h2 := List.mem_of_find?_eq_some h
    exact hall c h2 (by simpa using h1)

theorem queryCompanyID_eq_noRows_iff (db : DB) (guid : String) :
    queryCompanyID db guid = Except.error sql.Err.ErrNoRows ↔
      ∀ co ∈ db.company, co.guid ≠ guid := by
  unfold queryCompanyID
  cases h : db.company.find? (fun c => c.guid == guid) with
  | none =>
    simp only [true_iff]
    intro co hco
    have := List.find?_eq_none.mp h co hco
    simpa using this
  | some c =>
    simp only [reduceCtorEq, false_iff]
    intro hall
    have h1 := List.find?_some h
    have h2 := List.mem_of_find?_eq_some h
    exact hall c h2 (by simpa using h1)

theorem queryCompanyID_of_exists (db : DB) (guid : String)
    (h : ∃ co ∈ db.company, co.guid = guid) :
    ∃ co ∈ db.company, co.guid = guid ∧
      db.company.find? (fun c => c.guid == guid) = some co ∧
      queryCompanyID db guid = Except.ok co.id := by
  unfold queryCompanyID
  cases hf : db.company.find? (fun c => c.guid == guid) with
  | none =>
    obtain ⟨co, hco, hg⟩ := h
    have := List.find?_eq_none.mp hf co hco
    simp [hg] at this
  | some c =>
    have h1 := List.find?_some hf
    exact ⟨c, List.mem_of_find?_eq_some hf, by simpa using h1, rfl, rfl⟩

end repository

/-! ## The loops of List -/

namespace repository

theorem toModelsStatus_known_iff (s : String) :
    (toModelsStatus s).2 = none ↔ s ∈ knownStatuses := by
  unfold toModelsStatus knownStatuses
  by_cases h1 : s = InvoiceStatusUnprocessed
  · subst h1; decide
  by_cases h2 : s = InvoiceStatusProcessing
  · subst h2; decide
  by_cases h3 : s = InvoiceStatusPaied
  · subst h3; decide
  by_cases h4 : s = InvoiceStatusError
  · subst h4; decide
  simp [h1, h2, h3, h4]

theorem toModelsStatus_unknown (s : String) (h : s ∉ knownStatuses) :
    toModelsStatus s = ("", some ("unknown status: " ++ s)) := by
  unfold knownStatuses at h
  simp only [List.mem_cons, List.mem_singleton, List.not_mem_nil, or_false, not_or] at h
  unfold toModelsStatus
  simp [h.1, h.2.1, h.2.2.1, h.2.2.2]

theorem scanRows_healthy (rows : List (Invoice × String)) (i : Nat) (invoices : JoinRows) :
    scanRows Driver.healthy i rows invoices =
      Except.ok (invoices ++ rows.map fun r => ⟨r.1, r.2⟩) := by
  induction rows generalizing i invoices with
  | nil => simp [scanRows]
  | cons r rest ih =>
    have hd : Driver.healthy.listScan i = none := rfl
    simp [scanRows, hd, ih]

theorem toInvoiceModels_known (companyGUID : String) (rows : JoinRows) (acc : Invoices)
    (h : ∀ r ∈ rows, r.Invoice.Status ∈ knownStatuses) :
    toInvoiceModels companyGUID rows acc =
      (some (acc ++ rows.map fun r =>
        listedInvoice companyGUID (r.Invoice, ⟨r.Invoice.CustomerID, r.CustomerGUID, 0⟩)), none) := by
  induction rows generalizing acc with
  | nil => simp [toInvoiceModels]
  | cons r rest ih =>
    have hr : (toModelsStatus r.Invoice.Status).2 = none :=
      (toModelsStatus_known_iff _).mpr (h r (List.mem_cons_self _ _))
    have hrest : ∀ r ∈ rest, r.Invoice.Status ∈ knownStatuses :=
      fun x hx => h x (List.mem_cons_of_mem _ hx)
    rcases hst : toModelsStatus r.Invoice.Status with ⟨st, _ | err⟩
    · simp [toInvoiceModels, hst, ih _ hrest, listedInvoice]
    · rw [hst] at hr
      simp at hr

theorem toInvoiceModels_unknown (companyGUID : String) (rows : JoinRows) (acc : Invoices)
    (h : ∃ r ∈ rows, r.Invoice.Status ∉ knownStatuses) :
    ∃ r ∈ rows, r.Invoice.Status ∉ knownStatuses ∧
      toInvoiceModels companyGUID rows acc =
        (none, some (errpkg.NewInternalError ("unknown status: " ++ r.Invoice.Status))) := by
  induction rows generalizing acc with
  | nil => simp at h
  | cons r rest ih =>
    by_cases hk : r.Invoice.Status ∈ knownStatuses
    · have hrest : ∃ x ∈ rest, x.Invoice.Status ∉ knownStatuses := by
        obtain ⟨x, hx, hxs⟩ := h
        rcases List.mem_cons.mp hx with rfl | hx
        · exact absurd hk hxs
        · exact ⟨x, hx, hxs⟩
      have hr : (toModelsStatus r.Invoice.Status).2 = none := (toModelsStatus_known_iff _).mpr hk
      rcases hst : toModelsStatus r.Invoice.Status with ⟨st, _ | err⟩
      · obtain ⟨x, hx, hxs, hres⟩ := ih (acc ++ [listedInvoice companyGUID
          (r.Invoice, ⟨r.Invoice.CustomerID, r.CustomerGUID, 0⟩)]) hrest
        refine ⟨x, List.mem_cons_of_mem _ hx, hxs, ?_⟩
        simp only [toInvoiceModels, hst]
        simpa [listedInvoice, hst] using hres
      · rw [hst] at hr
        simp at hr
    · refine ⟨r, List.mem_cons_self _ _, hk, ?_⟩
      simp [toInvoiceModels, toModelsStatus_unknown _ hk]

theorem joinRow_filter_of (q : Invoice × String → Bool) (P : Invoice × CustomerRow → Bool)
    (inv : Invoice) (cs : List CustomerRow)
    (h : ∀ c, P (inv, c) = (decide (inv.CustomerID = c.id) && q (inv, c.guid))) :
    (cs.filterMap fun c => if inv.CustomerID = c.id then some (inv, c.guid) else none).filter q =
      ((cs.map (Prod.mk inv)).filter P).map fun p => (p.1, p.2.guid) := by
  induction cs with
  | nil => simp
  | cons c cs ihc =>
    by_cases h1 : inv.CustomerID = c.id
    · cases hq : q (inv, c.guid) <;>
        simp [List.filterMap_cons, List.filter_cons, h, h1, hq, ← ihc]
    · simp [List.filterMap_cons, List.filter_cons, h, h1, ← ihc]

theorem joinRow_filter (inv : Invoice) (cs : List CustomerRow) (companyID : Nat)
    (first last : Time) :
    (cs.filterMap fun c => if inv.CustomerID = c.id then some (inv, c.guid) else none).filter
        (fun r => decide (r.1.CompanyID = companyID ∧
          first ≤ r.1.PaymentDate ∧ r.1.PaymentDate ≤ last)) =
      ((cs.map (Prod.mk inv)).filter fun p =>
        decide (p.1.CompanyID = companyID ∧ p.1.CustomerID = p.2.id ∧
          first ≤ p.1.PaymentDate ∧ p.1.PaymentDate ≤ last)).map fun p => (p.1, p.2.guid) := by
  apply joinRow_filter_of
  intro c
  by_cases h1 : inv.CustomerID = c.id <;> by_cases h2 : inv.CompanyID = companyID <;>
    simp [h1, h2]

theorem queryInvoices_eq_selected (db : DB) (companyID : Nat) (first last : Time) :
    queryInvoices db companyID first last =
      (selectedPairs db companyID first last).map fun p => (p.1, p.2.guid) := by
  unfold queryInvoices selectedPairs
  generalize db.customer = cs
  induction db.invoice with
  | nil => simp [List.product]
  | cons inv invs ih =>
    have hp : (inv :: invs).product cs = cs.map (Prod.mk inv) ++ invs.product cs :=
      List.product_cons inv invs cs
    rw [List.flatMap_cons, List.filter_append, ih, hp, List.filter_append, List.map_append,
      joinRow_filter]

end repository

/-! ## List -/

namespace repository

theorem List_healthy_of_company (db : DB) (companyGUID : String) (first last : Time)
    (companyID : Nat) (h : queryCompanyID db companyGUID = Except.ok companyID) :
    InvoiceRepository.List Driver.healthy db companyGUID first last =
      toInvoiceModels companyGUID
        ((selectedPairs db companyID first last).map fun p => ⟨p.1, p.2.guid⟩) [] := by
  have h1 : withDriver Driver.healthy.listCompanyQuery (queryCompanyID db companyGUID) =
      Except.ok companyID := by rw [h]; rfl
  have h2 : Driver.healthy.listQuery = none := rfl
  have h3 : Driver.healthy.listClose = none := rfl
  have h4 : Driver.healthy.listRowsErr = none := rfl
  unfold InvoiceRepository.List
  rw [h1, h2, h3, h4]
  simp only [scanRows_healthy, queryInvoices_eq_selected, List.nil_append, List.map_map]
  rfl

theorem mem_selectedPairs (db : DB) (companyID : Nat) (first last : Time)
    (i : Invoice) (cu : CustomerRow) :
    (i, cu) ∈ selectedPairs db companyID first last ↔
      i ∈ db.invoice ∧ cu ∈ db.customer ∧ i.CompanyID = companyID ∧ i.CustomerID = cu.id ∧
        first ≤ i.PaymentDate ∧ i.PaymentDate ≤ last := by
  have hprod : (i, cu) ∈ List.product db.invoice db.customer ↔
      i ∈ db.invoice ∧ cu ∈ db.customer := List.mem_product
  unfold selectedPairs
  rw [List.mem_filter, hprod, decide_eq_true_iff]
  tauto

end repository

open repository in
/-- C3: when a company row with guid `companyGUID` exists and every stored status is one
of the four known ones, `List` returns, with no error, exactly one invoice per pair
(invoice row, customer row) with the invoice's company_id the id of that company, the
invoice's customer_id the customer's id and first <= payment_date <= last, in the order
of the query rows; each returned invoice carries `companyGUID`, the joined customer's
guid and the other fields of the invoice row; nothing else is returned. The company is
the first row with that guid. -/
theorem List_returns_selected_pairs (db : DB) (companyGUID : String) (first last : Time)
    (hc : ∃ co ∈ db.company, co.guid = companyGUID)
    (hs : ∀ i ∈ db.invoice, i.Status ∈ knownStatuses) :
    ∃ co ∈ db.company, co.guid = companyGUID ∧
      db.company.find? (fun c => c.guid == companyGUID) = some co ∧
      InvoiceRepository.List Driver.healthy db companyGUID first last =
        (some ((selectedPairs db co.id first last).map (listedInvoice companyGUID)), none) ∧
      (∀ m ∈ (selectedPairs db co.id first last).map (listedInvoice companyGUID),
        m.CompanyGUID = companyGUID ∧
        ∃ i ∈ db.invoice, ∃ cu ∈ db.customer,
          i.CompanyID = co.id ∧ i.CustomerID = cu.id ∧
          first ≤ i.PaymentDate ∧ i.PaymentDate ≤ last ∧
          m = listedInvoice companyGUID (i, cu) ∧ m.CustomerGUID = cu.guid ∧
          m.GUID = i.GUID ∧ m.PaymentDate = i.PaymentDate) ∧
      (∀ i ∈ db.invoice, ∀ cu ∈ db.customer,
        i.CompanyID = co.id → i.CustomerID = cu.id →
        first ≤ i.PaymentDate → i.PaymentDate ≤ last →
        listedInvoice companyGUID (i, cu) ∈
          (selectedPairs db co.id first last).map (listedInvoice companyGUID)) := by
  obtain ⟨co, hco, hg, hfind, hq⟩ := queryCompanyID_of_exists db companyGUID hc
  refine ⟨co, hco, hg, hfind, ?_, ?_, ?_⟩
  · rw [List_healthy_of_company db companyGUID first last co.id hq,
      toInvoiceModels_known, List.nil_append, List.map_map]
    · rfl
    · intro r hr
      obtain ⟨⟨i, cu⟩, hp, rfl⟩ := List.mem_map.mp hr
      exact hs i ((mem_selectedPairs db co.id first last i cu).mp hp).1
  · intro m hm
    obtain ⟨⟨i, cu⟩, hp, rfl⟩ := List.mem_map.mp hm
    obtain ⟨h1, h2, h3, h4, h5, h6⟩ := (mem_selectedPairs db co.id first last i cu).mp hp
    exact ⟨rfl, i, h1, cu, h2, h3, h4, h5, h6, rfl, rfl, rfl, rfl⟩
  · intro i hi cu hcu h1 h2 h3 h4
    exact List.mem_map.mpr ⟨(i, cu),
      (mem_selectedPairs db co.id first last i cu).mpr ⟨hi, hcu, h1, h2, h3, h4⟩, rfl⟩

open repository in
theorem List_returns_selected_pairs_witness :
    (∃ co ∈ fixtures.listDB.company, co.guid = "company-a") ∧
    (∀ i ∈ fixtures.listDB.invoice, i.Status ∈ knownStatuses) ∧
    InvoiceRepository.List Driver.healthy fixtures.listDB "company-a" 1711929600 1712275200 =
      (some [{ fixtures.invoiceFor "invoice-1" "company-a" "customer-1" with
                PaymentDate := 1711929600, Status := models.InvoiceStatusPaied },
             fixtures.invoiceFor "invoice-2" "company-a" "customer-2"], none) ∧
    ∃ co ∈ fixtures.listDB.company, co.guid = "company-a" ∧
      fixtures.listDB.company.find? (fun c => c.guid == "company-a") = some co ∧
      InvoiceRepository.List Driver.healthy fixtures.listDB "company-a" 1711929600 1712275200 =
        (some ((selectedPairs fixtures.listDB co.id 1711929600 1712275200).map
          (listedInvoice "company-a")), none) :=
  ⟨by decide, by decide, by decide,
    (List_returns_selected_pairs fixtures.listDB "company-a" 1711929600 1712275200
      (by decide) (by decide)).imp fun _ h => ⟨h.1, h.2.1, h.2.2.1, h.2.2.2.1⟩⟩

open repository in
/-- C10: `List` is all-or-nothing in the status mapping. When the company exists: if some
row selected by the query has a status outside the four known spellings, `List` returns a
nil slice and an internal error, whatever rows before it did map; if every selected row
has a known status, `List` returns no error and a non-nil slice with as many elements as
rows selected, empty when no row is selected. -/
theorem List_all_or_nothing (db : DB) (companyGUID : String) (first last : Time)
    (hc : ∃ co ∈ db.company, co.guid = companyGUID) :
    ∃ co ∈ db.company, co.guid = companyGUID ∧
      db.company.find? (fun c => c.guid == companyGUID) = some co ∧
      ((∃ r ∈ queryInvoices db co.id first last, r.1.Status ∉ knownStatuses) →
        ∃ e, InvoiceRepository.List Driver.healthy db companyGUID first last = (none, some e) ∧
          e.ErrCode = errpkg.ErrCode.ErrInternal) ∧
      ((∀ r ∈ queryInvoices db co.id first last, r.1.Status ∈ knownStatuses) →
        ∃ l, InvoiceRepository.List Driver.healthy db companyGUID first last = (some l, none) ∧
          l.length = (queryInvoices db co.id first last).length) ∧
      (queryInvoices db co.id first last = [] →
        InvoiceRepository.List Driver.healthy db companyGUID first last = (some [], none)) := by
  obtain ⟨co, hco, hg, hfind, hq⟩ := queryCompanyID_of_exists db companyGUID hc
  have hL := List_healthy_of_company db companyGUID first last co.id hq
  have hQ := queryInvoices_eq_selected db co.id first last
  refine ⟨co, hco, hg, hfind, ?_, ?_, ?_⟩
  · rintro ⟨r, hr, hbad⟩
    rw [hQ] at hr
    obtain ⟨p, hp, rfl⟩ := List.mem_map.mp hr
    obtain ⟨x, _, _, hres⟩ := toInvoiceModels_unknown companyGUID
      ((selectedPairs db co.id first last).map fun p => ⟨p.1, p.2.guid⟩) []
      ⟨⟨p.1, p.2.guid⟩, List.mem_map.mpr ⟨p, hp, rfl⟩, hbad⟩
    exact ⟨_, hL.trans hres, rfl⟩
  · intro hall
    refine ⟨_, hL.trans (toInvoiceModels_known companyGUID _ [] ?_), ?_⟩
    · intro r hr
      obtain ⟨p, hp, rfl⟩ := List.mem_map.mp hr
      exact hall (p.1, p.2.guid) (by rw [hQ]; exact List.mem_map.mpr ⟨p, hp, rfl⟩)
    · simp [hQ]
  · intro hnil
    rw [hQ, List.map_eq_nil_iff] at hnil
    rw [hL, hnil]
    rfl

open repository in
theorem List_all_or_nothing_witness :
    (∃ co ∈ fixtures.badStatusDB.company, co.guid = "company-a") ∧
    (∃ r ∈ queryInvoices fixtures.badStatusDB 1 1711929600 1712275200,
      r.1.Status ∉ knownStatuses) ∧
    InvoiceRepository.List Driver.healthy fixtures.badStatusDB "company-a" 1711929600
        1712275200 =
      (none, some (errpkg.NewInternalError "unknown status: Paid")) ∧
    InvoiceRepository.List Driver.healthy fixtures.badStatusDB "company-a" 1712361600
        1712361600 =
      (some [{ fixtures.invoiceFor "invoice-4" "company-a" "customer-1" with
                PaymentDate := 1712361600, Status := models.InvoiceStatusProcessing }], none) ∧
    InvoiceRepository.List Driver.healthy fixtures.badStatusDB "company-b" 0 1 =
      (some [], none) ∧
    ∃ co ∈ fixtures.badStatusDB.company, co.guid = "company-a" ∧
      ((∃ r ∈ queryInvoices fixtures.badStatusDB co.id 1711929600 1712275200,
          r.1.Status ∉ knownStatuses) →
        ∃ e, InvoiceRepository.List Driver.healthy fixtures.badStatusDB "company-a"
            1711929600 1712275200 = (none, some e) ∧
          e.ErrCode = errpkg.ErrCode.ErrInternal) :=
  ⟨by decide, by decide, by decide, by decide, by decide,
    (List_all_or_nothing fixtures.badStatusDB "company-a" 1711929600 1712275200
      (by decide)).imp fun _ h => ⟨h.1, h.2.1, h.2.2.2.1⟩⟩

open repository in
/-- C9: when no customer row has guid `invoice.CustomerGUID`, `Create` returns a
not-found error and leaves the store as it was; neither the company lookup nor the insert
takes place, so the outcome is the same whatever the driver would have done there. In
the same way `List` returns a nil slice and a not-found error when no company row has
guid `companyGUID`. Both hold as soon as the first lookup itself is answered. -/
theorem lookup_miss_is_not_found (drv : Driver) (db : DB) (invoice : models.Invoice)
    (companyGUID : String) (first last : Time) :
    (drv.createCustomerQuery = none →
      (∀ cu ∈ db.customer, cu.guid ≠ invoice.CustomerGUID) →
      InvoiceRepository.Create drv db invoice =
        (db, some (errpkg.NewNotFoundError
          ("customer not found: " ++ invoice.CustomerGUID ++
            " err: " ++ "sql: no rows in result set"))) ∧
      (InvoiceRepository.Create drv db invoice).1 = db ∧
      ∃ e, (InvoiceRepository.Create drv db invoice).2 = some e ∧
        e.ErrCode = errpkg.ErrCode.ErrNotFound) ∧
    (drv.listCompanyQuery = none →
      (∀ co ∈ db.company, co.guid ≠ companyGUID) →
      InvoiceRepository.List drv db companyGUID first last =
        (none, some (errpkg.NewNotFoundError
          ("company not found: " ++ companyGUID ++ " err: " ++
            "sql: no rows in result set"))) ∧
      ∃ e, (InvoiceRepository.List drv db companyGUID first last).2 = some e ∧
        e.ErrCode = errpkg.ErrCode.ErrNotFound) := by
  constructor
  · intro hd hmiss
    have hq := (queryCustomer_eq_noRows_iff db invoice.CustomerGUID).mpr hmiss
    have hres : InvoiceRepository.Create drv db invoice =
        (db, some (errpkg.NewNotFoundError
          ("customer not found: " ++ invoice.CustomerGUID ++
            " err: " ++ "sql: no rows in result set"))) := by
      unfold InvoiceRepository.Create
      rw [hd, hq]
      rfl
    rw [hres]
    exact ⟨rfl, rfl, _, rfl, rfl⟩
  · intro hd hmiss
    have hq := (queryCompanyID_eq_noRows_iff db companyGUID).mpr hmiss
    have hres : InvoiceRepository.List drv db companyGUID first last =
        (none, some (errpkg.NewNotFoundError
          ("company not found: " ++ companyGUID ++ " err: " ++
            "sql: no rows in result set"))) := by
      unfold InvoiceRepository.List
      rw [hd, hq]
      rfl
    rw [hres]
    exact ⟨rfl, _, rfl, rfl⟩

open repository in
theorem lookup_miss_is_not_found_witness :
    (∀ cu ∈ fixtures.listDB.customer, cu.guid ≠ "customer-9") ∧
    (∀ co ∈ fixtures.listDB.company, co.guid ≠ "company-z") ∧
    (InvoiceRepository.Create Driver.healthy fixtures.listDB
        (fixtures.invoiceFor "invoice-9" "company-a" "customer-9") =
      (fixtures.listDB, some (errpkg.NewNotFoundError
        ("customer not found: " ++ "customer-9" ++ " err: " ++
            "sql: no rows in result set")))) ∧
    (InvoiceRepository.List Driver.healthy fixtures.listDB "company-z" 0 1 =
      (none, some (errpkg.NewNotFoundError
        ("company not found: " ++ "company-z" ++ " err: " ++
            "sql: no rows in result set")))) :=
  ⟨by decide, by decide,
    ((lookup_miss_is_not_found Driver.healthy fixtures.listDB
      (fixtures.invoiceFor "invoice-9" "company-a" "customer-9") "company-z" 0 1).1
        rfl (by decide)).1,
    ((lookup_miss_is_not_found Driver.healthy fixtures.listDB
      (fixtures.invoiceFor "invoice-9" "company-a" "customer-9") "company-z" 0 1).2
        rfl (by decide)).1⟩

/-! ## Request handlers -/

open server in
/-- The handler model reproduces the three cases of `TestCreateInvoice`. -/
theorem TestCreateInvoice_cases :
    ((Server.CreateInvoice fixtures.mockUsecase fixtures.testCreateRequest
        fixtures.testLoginInfo).res =
      some (fixtures.testResponse "guid" "company_guid" "customer_guid" 1711929600 1712275200
        "unprocessed") ∧
     (Server.CreateInvoice fixtures.mockUsecase fixtures.testCreateRequest
        fixtures.testLoginInfo).err = none) ∧
    ((Server.CreateInvoice fixtures.mockUsecase ⟨none, none, none, none, none, none, none⟩
        fixtures.testLoginInfo).res = none ∧
     ((Server.CreateInvoice fixtures.mockUsecase ⟨none, none, none, none, none, none, none⟩
        fixtures.testLoginInfo).err.map fun e => e.ErrCode) =
      some errpkg.ErrCode.ErrInvalidArgument) ∧
    ((Server.CreateInvoice fixtures.failingUsecase fixtures.testCreateRequest
        fixtures.testLoginInfo).res = none ∧
     ((Server.CreateInvoice fixtures.failingUsecase fixtures.testCreateRequest
        fixtures.testLoginInfo).err.map fun e => e.ErrCode) =
      some errpkg.ErrCode.ErrInternal) := by
  decide

open server in
/-- The handler model reproduces the three cases of `TestListInvoice`. -/
theorem TestListInvoice_cases :
    ((Server.ListInvoice fixtures.mockUsecase fixtures.testListRequest
        fixtures.testLoginInfo).res =
      some [fixtures.testResponse "guid1" "company_guid1" "customer_guid1" 1711929600
              1711929600 "paied",
            fixtures.testResponse "guid2" "company_guid2" "customer_guid2" 1712016000
              1711929600 "unprocessed",
            fixtures.testResponse "guid3" "company_guid3" "customer_guid3" 1711929600
              1712275200 "error"] ∧
     (Server.ListInvoice fixtures.mockUsecase fixtures.testListRequest
        fixtures.testLoginInfo).err = none) ∧
    ((Server.ListInvoice fixtures.mockUsecase ⟨none, none⟩ fixtures.testLoginInfo).res = none ∧
     ((Server.ListInvoice fixtures.mockUsecase ⟨none, none⟩
        fixtures.testLoginInfo).err.map fun e => e.ErrCode) =
      some errpkg.ErrCode.ErrInvalidArgument) ∧
    ((Server.ListInvoice fixtures.failingUsecase fixtures.testListRequest
        fixtures.testLoginInfo).res = none ∧
     ((Server.ListInvoice fixtures.failingUsecase fixtures.testListRequest
        fixtures.testLoginInfo).err.map fun e => e.ErrCode) =
      some errpkg.ErrCode.ErrInternal) := by
  decide

open server in
/-- C6: for every list of invoices the use case's `List` returns without error,
`Server.ListInvoice` returns, with no error, a list of responses of the same length and
in the same order, the i-th of which repeats every field of the i-th invoice with the
status as its string value; `Server.CreateInvoice` maps the one invoice returned by the
use case's `Create` in the same field-for-field way. -/
theorem handlers_map_invoices_to_responses (uc : InvoiceUsecase)
    (loginInfo : models.LoginInfo) :
    (∀ (first last : Time) (invoices : List models.Invoice),
      uc.List loginInfo.CompanyGUID first last = Except.ok invoices →
      ∃ rs, (Server.ListInvoice uc ⟨some first, some last⟩ loginInfo).res = some rs ∧
        (Server.ListInvoice uc ⟨some first, some last⟩ loginInfo).err = none ∧
        rs.length = invoices.length ∧
        ∀ (i : Nat) (invoice : models.Invoice), invoices[i]? = some invoice →
          ∃ r, rs[i]? = some r ∧ copies r invoice) ∧
    (∀ (companyGUID customerGUID : String) (publishDate : Time) (payment : Nat)
        (commissionTaxRate taxRate : Float64) (paymentDate : Time) (invoice : models.Invoice),
      uc.Create companyGUID customerGUID publishDate payment commissionTaxRate taxRate
          paymentDate = Except.ok invoice →
      ∃ r, (Server.CreateInvoice uc
            ⟨some companyGUID, some customerGUID, some publishDate, some payment,
              some commissionTaxRate, some taxRate, some paymentDate⟩ loginInfo).res = some r ∧
        (Server.CreateInvoice uc
            ⟨some companyGUID, some customerGUID, some publishDate, some payment,
              some commissionTaxRate, some taxRate, some paymentDate⟩ loginInfo).err = none ∧
        copies r invoice) := by
  constructor
  · intro first last invoices h
    refine ⟨invoices.map toInvoiceResponse, ?_, ?_, ?_, ?_⟩
    · simp only [Server.ListInvoice, h]
    · simp only [Server.ListInvoice, h]
    · exact List.length_map _ _
    · intro i invoice hi
      refine ⟨toInvoiceResponse invoice, ?_, ?_⟩
      · rw [List.getElem?_map, hi]
        rfl
      · exact ⟨rfl, rfl, rfl, rfl, rfl, rfl, rfl, rfl, rfl, rfl, rfl, rfl⟩
  · intro companyGUID customerGUID publishDate payment commissionTaxRate taxRate paymentDate
      invoice h
    refine ⟨toInvoiceResponse invoice, ?_, ?_, ?_⟩
    · simp only [Server.CreateInvoice, h]
    · simp only [Server.CreateInvoice, h]
    · exact ⟨rfl, rfl, rfl, rfl, rfl, rfl, rfl, rfl, rfl, rfl, rfl, rfl⟩

open server in
theorem handlers_map_invoices_to_responses_witness :
    fixtures.mockUsecase.List fixtures.testLoginInfo.CompanyGUID 1711929600 1712275200 =
      Except.ok fixtures.testInvoices ∧
    ∃ rs, (Server.ListInvoice fixtures.mockUsecase ⟨some 1711929600, some 1712275200⟩
          fixtures.testLoginInfo).res = some rs ∧
      (Server.ListInvoice fixtures.mockUsecase ⟨some 1711929600, some 1712275200⟩
          fixtures.testLoginInfo).err = none ∧
      rs.length = fixtures.testInvoices.length ∧
      ∀ (i : Nat) (invoice : models.Invoice), fixtures.testInvoices[i]? = some invoice →
        ∃ r, rs[i]? = some r ∧ copies r invoice :=
  ⟨rfl,
    (handlers_map_invoices_to_responses fixtures.mockUsecase fixtures.testLoginInfo).1
      1711929600 1712275200 fixtures.testInvoices rfl⟩

open server in
/-- C7: a create body lacking a required field (company_guid, customer_guid,
publish_date, payment, one of the two rates, payment_date) and a list query lacking one
of its two dates are refused: the handler returns a nil response and a `ServerError` of
code `ErrInvalidArgument`, and makes no call on the use case. -/
theorem handlers_refuse_incomplete_requests (uc : InvoiceUsecase)
    (loginInfo : models.LoginInfo) :
    (∀ req : CreateInvoiceRequest,
      (req.company_guid = none ∨ req.customer_guid = none ∨ req.publish_date = none ∨
        req.payment = none ∨ req.commission_tax_rate = none ∨ req.tax_rate = none ∨
        req.payment_date = none) →
      (Server.CreateInvoice uc req loginInfo).res = none ∧
      (∃ e, (Server.CreateInvoice uc req loginInfo).err = some e ∧
        e.ErrCode = errpkg.ErrCode.ErrInvalidArgument) ∧
      (Server.CreateInvoice uc req loginInfo).calls = []) ∧
    (∀ req : ListInvoiceRequest,
      (req.first_payment_date = none ∨ req.last_payment_date = none) →
      (Server.ListInvoice uc req loginInfo).res = none ∧
      (∃ e, (Server.ListInvoice uc req loginInfo).err = some e ∧
        e.ErrCode = errpkg.ErrCode.ErrInvalidArgument) ∧
      (Server.ListInvoice uc req loginInfo).calls = []) := by
  constructor
  · rintro ⟨_ | a, _ | b, _ | c, _ | d, _ | e, _ | f, _ | g⟩ h <;>
      first
      | exact ⟨rfl, ⟨_, rfl, rfl⟩, rfl⟩
      | (exfalso; simp at h)
  · rintro ⟨_ | a, _ | b⟩ h <;>
      first
      | exact ⟨rfl, ⟨_, rfl, rfl⟩, rfl⟩
      | (exfalso; simp at h)

open server in
theorem handlers_refuse_incomplete_requests_witness :
    ((none : Option String) = none ∨ (none : Option String) = none ∨
      (none : Option Time) = none ∨ (none : Option Nat) = none ∨
      (none : Option Float64) = none ∨ (none : Option Float64) = none ∨
      (none : Option Time) = none) ∧
    ((Server.CreateInvoice fixtures.mockUsecase ⟨none, none, none, none, none, none, none⟩
        fixtures.testLoginInfo).res = none ∧
      (∃ e, (Server.CreateInvoice fixtures.mockUsecase
            ⟨none, none, none, none, none, none, none⟩ fixtures.testLoginInfo).err = some e ∧
        e.ErrCode = errpkg.ErrCode.ErrInvalidArgument) ∧
      (Server.CreateInvoice fixtures.mockUsecase ⟨none, none, none, none, none, none, none⟩
        fixtures.testLoginInfo).calls = []) ∧
    ((Server.ListInvoice fixtures.mockUsecase ⟨none, none⟩ fixtures.testLoginInfo).res = none ∧
      (∃ e, (Server.ListInvoice fixtures.mockUsecase ⟨none, none⟩
            fixtures.testLoginInfo).err = some e ∧
        e.ErrCode = errpkg.ErrCode.ErrInvalidArgument) ∧
      (Server.ListInvoice fixtures.mockUsecase ⟨none, none⟩ fixtures.testLoginInfo).calls = []) :=
  ⟨Or.inl rfl,
    (handlers_refuse_incomplete_requests fixtures.mockUsecase fixtures.testLoginInfo).1
      ⟨none, none, none, none, none, none, none⟩ (Or.inl rfl),
    (handlers_refuse_incomplete_requests fixtures.mockUsecase fixtures.testLoginInfo).2
      ⟨none, none⟩ (Or.inl rfl)⟩

/-! ## What Create does on success -/

namespace repository

/-- Whenever `Create` returns no error, the customer row found by guid and the company
row whose id equals that customer row's id (not its company_id) carry the claimed
company guid, and the row added stores the customer's id as company_id and the
customer's company_id as customer_id. -/
theorem Create_no_error_shape (drv : Driver) (db : DB) (invoice : models.Invoice)
    (h : (InvoiceRepository.Create drv db invoice).2 = none) :
    ∃ cu, db.customer.find? (fun c => c.guid == invoice.CustomerGUID) = some cu ∧
      ∃ co, db.company.find? (fun c => c.id == cu.id) = some co ∧
        co.guid = invoice.CompanyGUID ∧
        (InvoiceRepository.Create drv db invoice).1 =
          execInsert db invoice.GUID cu.id cu.company_id invoice.PublishDate invoice.Payment
            invoice.CommissionTax invoice.CommissionTaxRate invoice.ConsumptionTax
            invoice.TaxRate invoice.BillingAmount invoice.PaymentDate invoice.Status := by
  revert h
  unfold InvoiceRepository.Create withDriver queryCustomer queryCompanyGUID
  cases drv.createCustomerQuery with
  | some e => intro h; simp at h
  | none =>
    cases db.customer.find? (fun c => c.guid == invoice.CustomerGUID) with
    | none => intro h; simp at h
    | some cu =>
      cases drv.createCompanyQuery with
      | some e => intro h; simp at h
      | none =>
        dsimp only
        cases hg : db.company.find? (fun c => c.id == cu.id) with
        | none => intro h; simp at h
        | some co =>
          by_cases hne : co.guid = invoice.CompanyGUID
          · cases drv.createExec with
            | some e => intro h; simp [hne] at h
            | none => intro _; simp [hne, hg]
          · intro h; simp [hne] at h

end repository

/-! ## Create followed by List -/

namespace repository

theorem List_healthy_known (db : DB) (companyGUID : String) (first last : Time)
    (companyID : Nat) (hq : queryCompanyID db companyGUID = Except.ok companyID)
    (hs : ∀ i ∈ db.invoice, i.Status ∈ knownStatuses) :
    InvoiceRepository.List Driver.healthy db companyGUID first last =
      (some ((selectedPairs db companyID first last).map (listedInvoice companyGUID)), none) := by
  rw [List_healthy_of_company db companyGUID first last companyID hq,
    toInvoiceModels_known, List.nil_append, List.map_map]
  · rfl
  · intro r hr
    obtain ⟨⟨i, cu⟩, hp, rfl⟩ := List.mem_map.mp hr
    exact hs i ((mem_selectedPairs db companyID first last i cu).mp hp).1

theorem company_eq_of_guid (db : DB) (hguid : db.uniqueGuids) (a b : CompanyRow)
    (ha : a ∈ db.company) (hb : b ∈ db.company) (h : a.guid = b.guid) : a = b :=
  List.inj_on_of_nodup_map hguid.1 ha hb h

theorem customer_eq_of_guid (db : DB) (hguid : db.uniqueGuids) (a b : CustomerRow)
    (ha : a ∈ db.customer) (hb : b ∈ db.customer) (h : a.guid = b.guid) : a = b :=
  List.inj_on_of_nodup_map hguid.2 ha hb h

end repository

open repository in
/-- C11, as stated: `Create` followed by `List` is not a round trip on every store with
unique ids and guids. On `unknownStoredDB` the call to `Create` succeeds, but the store
already holds an invoice of the same company and payment date with the status "Paid",
so `List` returns a nil slice and an internal error. On `swappedDB` the call to `Create`
succeeds as well, but `List` returns an empty slice: the stored row carries the
customer's company_id as its customer_id and joins no customer row. -/
theorem Create_then_List_not_round_trip :
    (fixtures.unknownStoredDB.uniqueIds ∧ fixtures.unknownStoredDB.uniqueGuids ∧
      (fixtures.invoiceFor "invoice-6" "company-a" "customer-1").Status ∈ knownStatuses ∧
      (InvoiceRepository.Create Driver.healthy fixtures.unknownStoredDB
        (fixtures.invoiceFor "invoice-6" "company-a" "customer-1")).2 = none ∧
      (fixtures.invoiceFor "invoice-6" "company-a" "customer-1").PaymentDate = 1712275200 ∧
      InvoiceRepository.List Driver.healthy
          (InvoiceRepository.Create Driver.healthy fixtures.unknownStoredDB
            (fixtures.invoiceFor "invoice-6" "company-a" "customer-1")).1
          "company-a" 1712275200 1712275200 =
        (none, some (errpkg.NewInternalError "unknown status: Paid"))) ∧
    (fixtures.swappedDB.uniqueIds ∧ fixtures.swappedDB.uniqueGuids ∧
      (fixtures.invoiceFor "invoice-2" "company-b" "customer-2").Status ∈ knownStatuses ∧
      (InvoiceRepository.Create Driver.healthy fixtures.swappedDB
        (fixtures.invoiceFor "invoice-2" "company-b" "customer-2")).2 = none ∧
      (fixtures.invoiceFor "invoice-2" "company-b" "customer-2").PaymentDate = 1712275200 ∧
      InvoiceRepository.List Driver.healthy
          (InvoiceRepository.Create Driver.healthy fixtures.swappedDB
            (fixtures.invoiceFor "invoice-2" "company-b" "customer-2")).1
          "company-b" 1712275200 1712275200 =
        (some [], none)) := by
  decide

open repository in
/-- C11, amended: on a store whose company guids and customer guids are unique and
whose stored invoice statuses are all known, for an invoice with a known status whose
customer belongs to the claimed company, if `Create` returns no error then `List`, on
the resulting store, for the claimed company and any first <= PaymentDate <= last,
returns no error and a slice containing an invoice with the GUID, CompanyGUID and
CustomerGUID of the invoice created. -/
theorem Create_then_List_round_trip (drv : Driver) (db : DB) (invoice : models.Invoice)
    (first last : Time)
    (hguid : db.uniqueGuids)
    (hstored : ∀ i ∈ db.invoice, i.Status ∈ knownStatuses)
    (hstatus : invoice.Status ∈ knownStatuses)
    (hbelongs : ∃ cu ∈ db.customer, cu.guid = invoice.CustomerGUID ∧
      ∃ co ∈ db.company, co.id = cu.company_id ∧ co.guid = invoice.CompanyGUID)
    (hok : (InvoiceRepository.Create drv db invoice).2 = none)
    (hfirst : first ≤ invoice.PaymentDate) (hlast : invoice.PaymentDate ≤ last) :
    ∃ l, InvoiceRepository.List Driver.healthy (InvoiceRepository.Create drv db invoice).1
          invoice.CompanyGUID first last = (some l, none) ∧
      ∃ m ∈ l, m.GUID = invoice.GUID ∧ m.CompanyGUID = invoice.CompanyGUID ∧
        m.CustomerGUID = invoice.CustomerGUID := by
  obtain ⟨cu1, hfcu, co1, hfco, hco1g, hdb⟩ := Create_no_error_shape drv db invoice hok
  obtain ⟨cu, hcu, hcug, co, hco, hcoid, hcog⟩ := hbelongs
  have hcu1 : cu1 ∈ db.customer := List.mem_of_find?_eq_some hfcu
  have hcu1g : cu1.guid = invoice.CustomerGUID := by simpa using List.find?_some hfcu
  have hco1 : co1 ∈ db.company := List.mem_of_find?_eq_some hfco
  have hco1id : co1.id = cu1.id := by simpa using List.find?_some hfco
  have ecu : cu1 = cu := customer_eq_of_guid db hguid cu1 cu hcu1 hcu (hcu1g.trans hcug.symm)
  have eco : co1 = co := company_eq_of_guid db hguid co1 co hco1 hco (hco1g.trans hcog.symm)
  subst ecu eco
  have hid : cu1.company_id = cu1.id := hcoid.symm.trans hco1id
  rw [hdb]
  generalize hdb2 : execInsert db invoice.GUID cu1.id cu1.company_id invoice.PublishDate
    invoice.Payment invoice.CommissionTax invoice.CommissionTaxRate invoice.ConsumptionTax
    invoice.TaxRate invoice.BillingAmount invoice.PaymentDate invoice.Status = db2
  have hcomp : db2.company = db.company := by rw [← hdb2]; rfl
  have hcust : db2.customer = db.customer := by rw [← hdb2]; rfl
  have hinv : db2.invoice = db.invoice ++
      [{ ID := nextInvoiceID db.invoice, GUID := invoice.GUID, CompanyID := cu1.id,
         CustomerID := cu1.company_id, PublishDate := invoice.PublishDate,
         Payment := invoice.Payment, CommissionTax := invoice.CommissionTax,
         CommissionTaxRate := invoice.CommissionTaxRate,
         ConsumptionTax := invoice.ConsumptionTax, TaxRate := invoice.TaxRate,
         BillingAmount := invoice.BillingAmount, PaymentDate := invoice.PaymentDate,
         Status := invoice.Status }] := by rw [← hdb2]; rfl
  have hguid2 : db2.uniqueGuids := by
    unfold DB.uniqueGuids
    rw [hcomp, hcust]
    exact hguid
  obtain ⟨co2, hco2, hco2g, _, hq⟩ := queryCompanyID_of_exists db2 invoice.CompanyGUID
    ⟨co1, by rw [hcomp]; exact hco1, hco1g⟩
  have eco2 : co2 = co1 := company_eq_of_guid db2 hguid2 co2 co1 hco2
    (by rw [hcomp]; exact hco1) (hco2g.trans hco1g.symm)
  subst eco2
  have hknown : ∀ i ∈ db2.invoice, i.Status ∈ knownStatuses := by
    intro i hi
    rw [hinv] at hi
    rcases List.mem_append.mp hi with h | h
    · exact hstored i h
    · rw [List.mem_singleton] at h
      subst h
      exact hstatus
  refine ⟨_, List_healthy_known db2 invoice.CompanyGUID first last co2.id hq hknown, ?_⟩
  refine ⟨listedInvoice invoice.CompanyGUID
    ({ ID := nextInvoiceID db.invoice, GUID := invoice.GUID, CompanyID := cu1.id,
       CustomerID := cu1.company_id, PublishDate := invoice.PublishDate,
       Payment := invoice.Payment, CommissionTax := invoice.CommissionTax,
       CommissionTaxRate := invoice.CommissionTaxRate,
       ConsumptionTax := invoice.ConsumptionTax, TaxRate := invoice.TaxRate,
       BillingAmount := invoice.BillingAmount, PaymentDate := invoice.PaymentDate,
       Status := invoice.Status }, cu1), ?_, rfl, rfl, hcu1g⟩
  refine List.mem_map.mpr ⟨_, (mem_selectedPairs db2 co2.id first last _ cu1).mpr
    ⟨?_, ?_, hco1id.symm, hid, hfirst, hlast⟩, rfl⟩
  · rw [hinv]
    exact List.mem_append_right _ (List.mem_singleton_self _)
  · rw [hcust]
    exact hcu1

open repository in
theorem Create_then_List_round_trip_witness :
    fixtures.listDB.uniqueGuids ∧
    (∀ i ∈ fixtures.listDB.invoice, i.Status ∈ knownStatuses) ∧
    (fixtures.invoiceFor "invoice-5" "company-a" "customer-1").Status ∈ knownStatuses ∧
    (∃ cu ∈ fixtures.listDB.customer, cu.guid = "customer-1" ∧
      ∃ co ∈ fixtures.listDB.company, co.id = cu.company_id ∧ co.guid = "company-a") ∧
    (InvoiceRepository.Create Driver.healthy fixtures.listDB
      (fixtures.invoiceFor "invoice-5" "company-a" "customer-1")).2 = none ∧
    InvoiceRepository.List Driver.healthy
        (InvoiceRepository.Create Driver.healthy fixtures.listDB
          (fixtures.invoiceFor "invoice-5" "company-a" "customer-1")).1
        "company-a" 1712275200 1712275200 =
      (some [fixtures.invoiceFor "invoice-2" "company-a" "customer-2",
             fixtures.invoiceFor "invoice-5" "company-a" "customer-1"], none) ∧
    ∃ l, InvoiceRepository.List Driver.healthy
          (InvoiceRepository.Create Driver.healthy fixtures.listDB
            (fixtures.invoiceFor "invoice-5" "company-a" "customer-1")).1
          "company-a" 1712275200 1712275200 = (some l, none) ∧
      ∃ m ∈ l, m.GUID = "invoice-5" ∧ m.CompanyGUID = "company-a" ∧
        m.CustomerGUID = "customer-1" :=
  ⟨by decide, by decide, by decide, by decide, by decide, by decide,
    Create_then_List_round_trip Driver.healthy fixtures.listDB
      (fixtures.invoiceFor "invoice-5" "company-a" "customer-1") 1712275200 1712275200
      (by decide) (by decide) (by decide) (by decide) (by decide) (by decide) (by decide)⟩
